import Mathlib

/-!
Shallow embedding of the paystore-stk-backend payment bridge
(`stkPush`, `darajaCallback` and their helpers from the Cloud Functions
entrypoint).  JavaScript values that may be strings, numbers or absent
are modelled by `JVal`; JS truthiness is made explicit; fallible steps
return `Except` or are driven by explicit outcome parameters; Firestore
and HTTP are oracles, with the performed writes collected in an effect
trace in program order.
-/

namespace PayStk

/-- A JavaScript value as it appears in the JSON bodies handled by the
program: a string, an integer number, or `undefined`/`null` (both
collapsed into `jnull`, which is how the program stores them). -/
inductive JVal where
  | s (v : String)
  | n (v : Int)
  | jnull
deriving DecidableEq

/-- JS truthiness of a `JVal`: empty string, `0` and `undefined`/`null`
are falsy. -/
def JVal.truthy : JVal → Bool
  | .s v => v ≠ ""
  | .n v => v ≠ 0
  | .jnull => false

/-- `a || b || null` on JS values: first truthy operand wins, otherwise
`null` (`jnull`). -/
def jvOr2 (a b : JVal) : JVal :=
  if a.truthy then a else if b.truthy then b else .jnull

/-- `String(v)` / `v.toString()` on a `JVal` (numbers print in decimal,
as JS integers do). -/
def JVal.toStr : JVal → String
  | .s v => v
  | .n v => toString v
  | .jnull => "undefined"

/-- JS truthiness of an optional string (absent or empty string is
falsy). -/
def otruthyS : Option String → Bool
  | some v => v ≠ ""
  | none => false

/-- `x || d` for an optional string `x` with a string default `d`. -/
def jsOrS (o : Option String) (d : String) : String :=
  match o with
  | some v => if v = "" then d else v
  | none => d

/-- `x || null` for an optional string: an empty string becomes
`null`. -/
def jsOrNullS (o : Option String) : Option String :=
  match o with
  | some v => if v = "" then none else some v
  | none => none

/-- `x || y || z || null` over optional strings with JS truthiness. -/
def jsOrS3 (a b c : Option String) : Option String :=
  if otruthyS a then a else if otruthyS b then b else if otruthyS c then c else none

-- ---------------------------------------------------------------
-- String helpers mirroring the JS string methods used by the code.
-- ---------------------------------------------------------------

/-- Decidable equality for `Except`. -/
def exceptDecEq {ε α : Type} [DecidableEq ε] [DecidableEq α] :
    DecidableEq (Except ε α)
  | .error e, .error e' =>
    if h : e = e' then isTrue (by rw [h])
    else isFalse (by intro hc; injection hc; contradiction)
  | .ok a, .ok a' =>
    if h : a = a' then isTrue (by rw [h])
    else isFalse (by intro hc; injection hc; contradiction)
  | .error _, .ok _ => isFalse (by intro hc; cases hc)
  | .ok _, .error _ => isFalse (by intro hc; cases hc)

instance {ε α : Type} [DecidableEq ε] [DecidableEq α] : DecidableEq (Except ε α) :=
  exceptDecEq

/-- JS `String.prototype.trim`: drop whitespace from both ends. -/
def jsTrim (s : String) : String :=
  String.mk
    (((s.data.dropWhile Char.isWhitespace).reverse.dropWhile Char.isWhitespace).reverse)

/-- Drop the first character (`s.substring(1)`). -/
def strDrop1 (s : String) : String := String.mk (s.data.drop 1)

/-- Does the character list `l` start with the pattern `p`? -/
def hasPfxL : List Char → List Char → Bool
  | _, [] => true
  | [], _ :: _ => false
  | a :: l, b :: p => a = b && hasPfxL l p

/-- JS `String.prototype.includes` on character lists. -/
def inclL (l p : List Char) : Bool :=
  hasPfxL l p ||
    (match l with
     | [] => false
     | _ :: t => inclL t p)

/-- JS `String.prototype.replace` with a string pattern: replace the
first occurrence only; if the pattern does not occur the input is
returned unchanged. -/
def replFirstL (l pat rep : List Char) : List Char :=
  if hasPfxL l pat then rep ++ l.drop pat.length
  else
    match l with
    | [] => []
    | c :: t => c :: replFirstL t pat rep

/-- JS `s.includes(pat)`. -/
def strIncludes (s pat : String) : Bool := inclL s.data pat.data

/-- JS `s.replace(pat, rep)` with a string pattern (first occurrence). -/
def strReplaceFirst (s pat rep : String) : String :=
  String.mk (replFirstL s.data pat.data rep.data)

-- ---------------------------------------------------------------
-- `normalizePhoneForDaraja` (source lines 21-30).
-- ---------------------------------------------------------------

/-- Strip one leading `+` (`s0.startsWith('+') ? s0.substring(1) : s0`,
source line 24). -/
def stripLeadPlus (l : List Char) : List Char :=
  match l with
  | '+' :: t => t
  | other => other

/-- The digit string the normalizer classifies: trim, strip one leading
`+`, then drop every non-digit character (source lines 22-25). -/
def prePhone (raw : String) : String :=
  String.mk ((stripLeadPlus (jsTrim raw).data).filter Char.isDigit)

/-- The regex `^0[7]\d{8}$`: exactly `0`, `7`, then eight digits. -/
def shape07 (s : String) : Bool :=
  s.data.head? == some '0' && (s.data.drop 1).head? == some '7' &&
    (s.data.drop 2).length == 8 && (s.data.drop 2).all Char.isDigit

/-- The regex `^[7]\d{8}$`: exactly `7` then eight digits. -/
def shape7 (s : String) : Bool :=
  s.data.head? == some '7' &&
    (s.data.drop 1).length == 8 && (s.data.drop 1).all Char.isDigit

/-- The regex `^254[7]\d{8}$`: exactly `2`, `5`, `4`, `7`, then eight
digits. -/
def shape254 (s : String) : Bool :=
  s.data.head? == some '2' && (s.data.drop 1).head? == some '5' &&
    (s.data.drop 2).head? == some '4' && (s.data.drop 3).head? == some '7' &&
      (s.data.drop 4).length == 8 && (s.data.drop 4).all Char.isDigit

/-- `normalizePhoneForDaraja` (source lines 21-30): empty input throws
`Phone is empty`; otherwise strip a leading `+` and all non-digits and
classify against the three accepted shapes, throwing
`Unsupported phone format: <raw>` when none matches. -/
def normalizePhoneForDaraja (raw : String) : Except String String :=
  if jsTrim raw = "" then .error "Phone is empty"
  else
    let s := prePhone raw
    if shape07 s then .ok ("254" ++ strDrop1 s)
    else if shape7 s then .ok ("254" ++ s)
    else if shape254 s then .ok s
    else .error ("Unsupported phone format: " ++ raw)

-- ---------------------------------------------------------------
-- `parseInt(x, 10)` as used on the request amount.
-- ---------------------------------------------------------------

/-- Accumulate the value of the leading decimal digits. -/
def digitsVal : List Char → Nat → Nat
  | [], acc => acc
  | c :: r, acc => if c.isDigit then digitsVal r (acc * 10 + (c.toNat - 48)) else acc

/-- Parse a non-empty run of leading digits; `none` when the first
character is not a digit (JS `NaN`). -/
def parseDigits : List Char → Option Nat
  | [] => none
  | c :: r => if c.isDigit then some (digitsVal (c :: r) 0) else none

/-- JS `parseInt(s, 10)`: skip leading whitespace, optional sign, then
leading digits; `none` models `NaN`. -/
def parseIntJS (str : String) : Option Int :=
  let cs := str.data.dropWhile Char.isWhitespace
  match cs with
  | '-' :: r => (parseDigits r).map (fun v => -(v : Int))
  | '+' :: r => (parseDigits r).map (fun v => (v : Int))
  | r => (parseDigits r).map (fun v => (v : Int))

-- ---------------------------------------------------------------
-- `makePassword` (source lines 43-46): base64 of the UTF-8 bytes of
-- `paybill + passkey + timestamp` (Buffer.from(raw).toString('base64')).
-- ---------------------------------------------------------------

/-- UTF-8 encoding of one code point. -/
def utf8Bytes (c : Nat) : List Nat :=
  if c < 128 then [c]
  else if c < 2048 then [192 + c / 64, 128 + c % 64]
  else if c < 65536 then [224 + c / 4096, 128 + c / 64 % 64, 128 + c % 64]
  else [240 + c / 262144, 128 + c / 4096 % 64, 128 + c / 64 % 64, 128 + c % 64]

/-- UTF-8 encoding of a list of code points. -/
def utf8Encode : List Nat → List Nat
  | [] => []
  | c :: cs => utf8Bytes c ++ utf8Encode cs

/-- The first byte of the UTF-8 encoding of code point `c`. -/
def utf8Head (c : Nat) : Nat :=
  if c < 128 then c
  else if c < 2048 then 192 + c / 64
  else if c < 65536 then 224 + c / 4096
  else 240 + c / 262144

/-- The UTF-8 bytes of a string (`Buffer.from(s)`). -/
def strBytes (s : String) : List Nat :=
  utf8Encode (s.data.map Char.toNat)

/-- The standard base64 alphabet. -/
def b64Alpha : List Char :=
  "ABCDEFGHIJKLMNOPQRSTUVWXYZabcdefghijklmnopqrstuvwxyz0123456789+/".data

/-- The base64 character for a sestet. -/
def sixChar (v : Nat) : Char := b64Alpha.getD v 'A'

/-- The index of a base64 character in the alphabet. -/
def sixIndex (c : Char) : Nat := b64Alpha.findIdx (· == c)

/-- Base64 encoding of a byte list, three bytes per group, `=`-padded. -/
def base64Chars : List Nat → List Char
  | [] => []
  | [b0] => [sixChar (b0 / 4), sixChar (b0 % 4 * 16), '=', '=']
  | [b0, b1] => [sixChar (b0 / 4), sixChar (b0 % 4 * 16 + b1 / 16), sixChar (b1 % 16 * 4), '=']
  | b0 :: b1 :: b2 :: rest =>
    sixChar (b0 / 4) :: sixChar (b0 % 4 * 16 + b1 / 16) ::
      sixChar (b1 % 16 * 4 + b2 / 64) :: sixChar (b2 % 64) :: base64Chars rest

/-- Left inverse of `base64Chars`, used to prove it injective. -/
def base64Decode : List Char → Option (List Nat)
  | c0 :: c1 :: c2 :: c3 :: rest =>
    if c2 = '=' then some [sixIndex c0 * 4 + sixIndex c1 / 16]
    else if c3 = '=' then
      some [sixIndex c0 * 4 + sixIndex c1 / 16, sixIndex c1 % 16 * 16 + sixIndex c2 / 4]
    else
      (base64Decode rest).map
        (fun r =>
          (sixIndex c0 * 4 + sixIndex c1 / 16) ::
            (sixIndex c1 % 16 * 16 + sixIndex c2 / 4) ::
              (sixIndex c2 % 4 * 64 + sixIndex c3) :: r)
  | [] => some []
  | _ => none

/-- `Buffer.from(raw).toString('base64')`. -/
def base64Encode (bytes : List Nat) : String := String.mk (base64Chars bytes)

/-- `makePassword` (source lines 43-46): base64 of
`paybill + passkey + timestamp`. -/
def makePassword (paybill passkey timestamp : String) : String :=
  base64Encode (strBytes (paybill ++ passkey ++ timestamp))

-- ---------------------------------------------------------------
-- Config resolution (source lines 48-84).
-- ---------------------------------------------------------------

/-- The seven `DARAJA_*` process environment variables; environment
values are always strings, `none` means unset. -/
structure DarajaEnvVars where
  DARAJA_CONSUMER_KEY : Option String
  DARAJA_CONSUMER_SECRET : Option String
  DARAJA_PASSKEY : Option String
  DARAJA_PAYBILL : Option String
  DARAJA_OAUTHURL : Option String
  DARAJA_STKURL : Option String
  DARAJA_CALLBACKURL : Option String
deriving DecidableEq

/-- The `app_config/daraja` fallback document: its fields are arbitrary
JSON values. -/
structure DarajaDoc where
  consumerKey : JVal
  consumerSecret : JVal
  passkey : JVal
  paybill : JVal
  oauthurl : JVal
  stkurl : JVal
  callbackurl : JVal
deriving DecidableEq

/-- The resolved credential bundle.  The short-code is always a string
(`paybill.toString()` in both resolution paths); the other six fields
are returned as the JS values they were. -/
structure DarajaBundle where
  consumerKey : JVal
  consumerSecret : JVal
  passkey : JVal
  paybill : String
  oauthurl : JVal
  stkurl : JVal
  callbackurl : JVal
deriving DecidableEq

/-- `env.X && env.Y && ...` for the seven environment values
(source line 69). -/
def envComplete (env : DarajaEnvVars) : Bool :=
  otruthyS env.DARAJA_CONSUMER_KEY && otruthyS env.DARAJA_CONSUMER_SECRET &&
    otruthyS env.DARAJA_PASSKEY && otruthyS env.DARAJA_PAYBILL &&
      otruthyS env.DARAJA_OAUTHURL && otruthyS env.DARAJA_STKURL &&
        otruthyS env.DARAJA_CALLBACKURL

/-- The bundle built from the environment (source lines 70-78);
`DARAJA_PAYBILL.toString()` is the identity on an environment string. -/
def envBundle (env : DarajaEnvVars) : DarajaBundle :=
  { consumerKey := .s (env.DARAJA_CONSUMER_KEY.getD "")
    consumerSecret := .s (env.DARAJA_CONSUMER_SECRET.getD "")
    passkey := .s (env.DARAJA_PASSKEY.getD "")
    paybill := env.DARAJA_PAYBILL.getD ""
    oauthurl := .s (env.DARAJA_OAUTHURL.getD "")
    stkurl := .s (env.DARAJA_STKURL.getD "")
    callbackurl := .s (env.DARAJA_CALLBACKURL.getD "") }

/-- `data && data.consumerKey && ... && data.callbackurl`
(source line 53). -/
def docComplete (d : DarajaDoc) : Bool :=
  d.consumerKey.truthy && d.consumerSecret.truthy && d.passkey.truthy &&
    d.paybill.truthy && d.oauthurl.truthy && d.stkurl.truthy && d.callbackurl.truthy

/-- The bundle built from the fallback document (source lines 55-63):
fields verbatim except `paybill: data.paybill.toString()`. -/
def docBundle (d : DarajaDoc) : DarajaBundle :=
  { consumerKey := d.consumerKey
    consumerSecret := d.consumerSecret
    passkey := d.passkey
    paybill := d.paybill.toStr
    oauthurl := d.oauthurl
    stkurl := d.stkurl
    callbackurl := d.callbackurl }

/-- `loadDarajaConfigFromFirestore` (source lines 48-64): `none` when
the document does not exist or any of the seven fields is falsy.  The
argument is the current content of `app_config/daraja`. -/
def loadDarajaConfigFromFirestore (fsDoc : Option DarajaDoc) : Option DarajaBundle :=
  match fsDoc with
  | none => none
  | some d => if docComplete d then some (docBundle d) else none

/-- The error thrown when neither source yields a bundle
(source line 83). -/
def configMissingMsg : String :=
  "Daraja config missing. Set secrets or populate app_config/daraja in Firestore."

/-- `getDarajaConfig` (source lines 66-84).  The boolean records
whether the Firestore fallback document was read. -/
def getDarajaConfig (env : DarajaEnvVars) (fsDoc : Option DarajaDoc) :
    Except String DarajaBundle × Bool :=
  if envComplete env then (.ok (envBundle env), false)
  else
    match loadDarajaConfigFromFirestore fsDoc with
    | some cfg => (.ok cfg, true)
    | none => (.error configMissingMsg, true)

-- ---------------------------------------------------------------
-- Token acquisition (source lines 86-98 and 116-127).
-- ---------------------------------------------------------------

/-- The JSON body of an OAuth response (`resp.data`); `access_token`
may be absent. -/
structure OauthBody where
  access_token : Option String
deriving DecidableEq

/-- A resolved OAuth HTTP response: status plus optional body. -/
structure OauthResp where
  status : Nat
  data : Option OauthBody
deriving DecidableEq

/-- A token-acquisition error: either the GET itself threw (timeout,
DNS, ...) or the response was not a 2xx carrying an access token
(`daraja-oauth-error:status ...`).  The URL identifies which call the
error came from. -/
inductive TokErr where
  | transport (url : String)
  | oauth (url : String) (status : Nat)
deriving DecidableEq

/-- `getDarajaToken` (source lines 86-98).  `net url ck cs` is the
outcome of `axios.get(url)` with Basic auth for `ck:cs`; `none` models
a thrown transport error.  Success needs a 2xx status and a truthy
`resp.data.access_token`. -/
def getDarajaToken (net : String → String → String → Option OauthResp)
    (url ck cs : String) : Except TokErr String :=
  match net url ck cs with
  | none => .error (.transport url)
  | some r =>
    match r.data with
    | some b =>
      match b.access_token with
      | some t =>
        if 200 ≤ r.status ∧ r.status < 300 ∧ t ≠ "" then .ok t
        else .error (.oauth url r.status)
      | none => .error (.oauth url r.status)
    | none => .error (.oauth url r.status)

/-- The production OAuth host substring tested by the fallback
(source line 121). -/
def prodHost : String := "api.safaricom.co.ke"

/-- The sandbox host substituted on retry (source line 122). -/
def sandboxHost : String := "sandbox.safaricom.co.ke"

/-- The stkPush config stripped down to the strings the handler uses
(a fully resolved bundle). -/
structure DarajaCfg where
  consumerKey : String
  consumerSecret : String
  passkey : String
  paybill : String
  oauthurl : String
  stkurl : String
  callbackurl : String
deriving DecidableEq

/-- The try/catch around token acquisition in `stkPush` (source lines
116-127): on failure, retry once against the sandbox host when the
OAuth URL is truthy and contains the production host substring,
otherwise rethrow the original error.  Also returns the list of OAuth
URLs called, in order. -/
def tokenAttempt (net : String → String → String → Option OauthResp)
    (cfg : DarajaCfg) : Except TokErr String × List String :=
  match getDarajaToken net cfg.oauthurl cfg.consumerKey cfg.consumerSecret with
  | .ok t => (.ok t, [cfg.oauthurl])
  | .error e =>
    if cfg.oauthurl ≠ "" && strIncludes cfg.oauthurl prodHost then
      let sandbox := strReplaceFirst cfg.oauthurl prodHost sandboxHost
      (getDarajaToken net sandbox cfg.consumerKey cfg.consumerSecret,
        [cfg.oauthurl, sandbox])
    else (.error e, [cfg.oauthurl])

-- ---------------------------------------------------------------
-- `stkPush` (source lines 105-182).
-- ---------------------------------------------------------------

/-- The request body (body-or-query merged view); absent fields are
`none`. -/
structure StkReq where
  phone : Option String
  amount : Option String
  uid : Option String
  accountRef : Option String
  description : Option String
deriving DecidableEq

/-- The outbound push payload (source lines 133-145). -/
structure StkBody where
  BusinessShortCode : String
  Password : String
  Timestamp : String
  TransactionType : String
  Amount : Int
  PartyA : String
  PartyB : String
  PhoneNumber : String
  CallBackURL : String
  AccountReference : String
  TransactionDesc : String
deriving DecidableEq

/-- The JSON body of the push response, carrying the three tolerated
spellings of the correlation identifier (source line 166). -/
structure PushData where
  CheckoutRequestID : Option String
  checkoutRequestID : Option String
  CheckoutRequestId : Option String
deriving DecidableEq

/-- A resolved push HTTP response (`validateStatus: () => true`
resolves every status). -/
structure PushResp where
  status : Nat
  data : Option PushData
deriving DecidableEq

/-- Correlation extraction (source lines 164-167):
`resp.data.CheckoutRequestID || resp.data.checkoutRequestID ||
resp.data.CheckoutRequestId || null`, `null` when no body. -/
def extractCri (d : Option PushData) : Option String :=
  match d with
  | none => none
  | some p => jsOrS3 p.CheckoutRequestID p.checkoutRequestID p.CheckoutRequestId

/-- The pending record created before the upstream call
(source lines 147-156). -/
structure PendingInit where
  uid : Option String
  msisdn : String
  amount : Int
  checkoutRequestId : Option String
  createdAt : Bool
  status : String
  requestBody : StkBody
deriving DecidableEq

/-- The pending-record update after the upstream call resolves
(source lines 169-175). -/
structure PendingUpd where
  checkoutRequestId : Option String
  status : String
  responseStatus : Nat
  responseBody : Option PushData
  updatedAt : Bool
deriving DecidableEq

/-- One observable side effect of a `stkPush` invocation, in program
order: resolving the config, one OAuth GET, the pending-record write,
the upstream POST, the pending-record update. -/
inductive Effect where
  | configResolve
  | tokenCall (url : String)
  | pendingSet (rec : PendingInit)
  | pushCall
  | pendingUpdate (upd : PendingUpd)
deriving DecidableEq

/-- The JSON rendered to the caller. -/
inductive StkRespBody where
  | badInput
  | pushFailed
  | success (status : Nat) (data : Option PushData) (checkoutRequestId : Option String)
deriving DecidableEq

/-- The outcome of one `stkPush` invocation: HTTP status, response
body, and the effects performed, in order. -/
structure StkOut where
  httpStatus : Nat
  respBody : StkRespBody
  fx : List Effect
deriving DecidableEq

/-- The external world one `stkPush` invocation runs against:
the config-resolution outcome, the OAuth oracle, and the outcome of
the upstream POST (`none` models a thrown transport error). -/
structure StkEnv where
  cfgRes : Except String DarajaCfg
  net : String → String → String → Option OauthResp
  pushResp : Option PushResp

/-- `parseInt(body.amount, 10)` for a request: an absent amount parses
to `NaN` (`none`). -/
def reqAmount (req : StkReq) : Option Int := req.amount.bind parseIntJS

/-- The amounts of the pending records written during one invocation. -/
def pendingAmounts (o : StkOut) : List Int :=
  o.fx.filterMap fun e =>
    match e with
    | .pendingSet r => some r.amount
    | _ => none

/-- `stkPush` (source lines 105-182) for a POST request.  `ts` is the
value of `utcTimestamp()` at this invocation.  Firestore writes are
assumed to succeed and are recorded in the effect trace. -/
def stkPush (req : StkReq) (env : StkEnv) (ts : String) : StkOut :=
  match req.phone, reqAmount req with
  | some praw, some amount =>
    if praw = "" || amount = 0 then ⟨400, .badInput, []⟩
    else
      match env.cfgRes with
      | .error _ => ⟨502, .pushFailed, [.configResolve]⟩
      | .ok cfg =>
        match tokenAttempt env.net cfg with
        | (.error _, urls) =>
          ⟨502, .pushFailed, .configResolve :: urls.map Effect.tokenCall⟩
        | (.ok _token, urls) =>
          let fx0 := Effect.configResolve :: urls.map Effect.tokenCall
          match normalizePhoneForDaraja praw with
          | .error _ => ⟨502, .pushFailed, fx0⟩
          | .ok phone =>
            let password := makePassword cfg.paybill cfg.passkey ts
            let stkBody : StkBody :=
              { BusinessShortCode := cfg.paybill
                Password := password
                Timestamp := ts
                TransactionType := "CustomerPayBillOnline"
                Amount := amount
                PartyA := phone
                PartyB := cfg.paybill
                PhoneNumber := phone
                CallBackURL := cfg.callbackurl
                AccountReference := jsOrS req.accountRef phone
                TransactionDesc := jsOrS req.description "Payment" }
            let initRec : PendingInit :=
              { uid := jsOrNullS req.uid
                msisdn := phone
                amount := amount
                checkoutRequestId := none
                createdAt := true
                status := "initiated"
                requestBody := stkBody }
            let fx1 := fx0 ++ [.pendingSet initRec]
            match env.pushResp with
            | none => ⟨502, .pushFailed, fx1 ++ [.pushCall]⟩
            | some resp =>
              let cri := extractCri resp.data
              let upd : PendingUpd :=
                { checkoutRequestId := cri
                  status := if 200 ≤ resp.status ∧ resp.status < 300 then "pending" else "failed"
                  responseStatus := resp.status
                  responseBody := resp.data
                  updatedAt := true }
              ⟨200, .success resp.status resp.data cri,
                fx1 ++ [.pushCall, .pendingUpdate upd]⟩
  | _, _ => ⟨400, .badInput, []⟩

-- ---------------------------------------------------------------
-- `darajaCallback` (source lines 188-226).
-- ---------------------------------------------------------------

/-- The six fields the handler reads off the callback payload, each as
an arbitrary JS value (`jnull` when absent). -/
structure StkCb where
  CheckoutRequestID : JVal
  checkoutRequestID : JVal
  ResultCode : JVal
  resultCode : JVal
  ResultDesc : JVal
  resultDesc : JVal
deriving DecidableEq

/-- An inbound callback body.  `bodyStk` is `body.Body.stkCallback`
when `body.Body` is a truthy object carrying a truthy `stkCallback`;
`stkCbP`/`stkCbC` are top-level `StkCallback`/`stkCallback` objects;
`selfCb` reads the six fields off the body itself. -/
structure CbBody where
  bodyStk : Option StkCb
  stkCbP : Option StkCb
  stkCbC : Option StkCb
  selfCb : StkCb
deriving DecidableEq

/-- Payload selection (source line 193):
`body.Body && body.Body.stkCallback ? body.Body.stkCallback :
(body.StkCallback || body.stkCallback || body)`. -/
def extractPayload (b : CbBody) : StkCb :=
  match b.bodyStk with
  | some p => p
  | none =>
    match b.stkCbP with
    | some p => p
    | none =>
      match b.stkCbC with
      | some p => p
      | none => b.selfCb

/-- The extracted correlation identifier (source line 195). -/
def cbCri (b : CbBody) : JVal :=
  jvOr2 (extractPayload b).CheckoutRequestID (extractPayload b).checkoutRequestID

/-- The extracted result code (source line 196).  Note `0` is falsy, so
a numeric `ResultCode: 0` extracts to `null`. -/
def cbRc (b : CbBody) : JVal :=
  jvOr2 (extractPayload b).ResultCode (extractPayload b).resultCode

/-- The extracted result description (source line 197). -/
def cbRd (b : CbBody) : JVal :=
  jvOr2 (extractPayload b).ResultDesc (extractPayload b).resultDesc

/-- The key of the `payments_results` document (source line 199):
the correlation identifier when truthy, else a generated id. -/
inductive ResultKey where
  | byId (v : JVal)
  | generated (g : String)
deriving DecidableEq

/-- `docId = checkoutRequestId || generated` (source line 199). -/
def cbKey (b : CbBody) (genId : String) : ResultKey :=
  if (cbCri b).truthy then .byId (cbCri b) else .generated genId

/-- The callback-result record (source lines 200-206): full raw body,
extracted fields, receipt timestamp sentinel. -/
structure ResultRec where
  raw : CbBody
  checkoutRequestId : JVal
  resultCode : JVal
  resultDesc : JVal
  receivedAt : Bool
deriving DecidableEq

/-- The record written to `payments_results` for body `b`. -/
def cbRec (b : CbBody) : ResultRec :=
  { raw := b
    checkoutRequestId := cbCri b
    resultCode := cbRc b
    resultDesc := cbRd b
    receivedAt := true }

/-- The pending-record update written by the reconciler
(source lines 212-217). -/
structure CbUpd where
  status : String
  resultCode : JVal
  resultDesc : JVal
  callbackAt : Bool
deriving DecidableEq

/-- One observable side effect of a callback invocation. -/
inductive CbEffect where
  | resultSet (key : ResultKey) (rec : ResultRec)
  | pendingQuery (cri : JVal)
  | pendingUpd (ref : String) (upd : CbUpd)
deriving DecidableEq

/-- The outcome of the `payments_pending` query: it threw, found
nothing, or found a document (its reference id). -/
inductive QRes where
  | threw
  | empty
  | found (ref : String)
deriving DecidableEq

/-- The external world a callback invocation runs against: the id
Firestore would generate, and the outcomes of the three fallible
persistence steps. -/
structure CbEnv where
  genId : String
  resultWriteOk : Bool
  lookup : QRes
  updateOk : Bool
deriving DecidableEq

/-- `darajaCallback` (source lines 188-226) for a POST request.
Returns the HTTP status, the response text, and the persisted effects
in program order; a step whose outcome is a throw contributes no
effect and lands in the catch-all 500. -/
def darajaCallback (b : CbBody) (env : CbEnv) : Nat × String × List CbEffect :=
  let key := cbKey b env.genId
  let rec0 := cbRec b
  if !env.resultWriteOk then (500, "error", [])
  else
    let fx0 := [CbEffect.resultSet key rec0]
    if (cbCri b).truthy then
      match env.lookup with
      | .threw => (500, "error", fx0)
      | .empty => (200, "OK", fx0 ++ [.pendingQuery (cbCri b)])
      | .found ref =>
        if !env.updateOk then (500, "error", fx0 ++ [.pendingQuery (cbCri b)])
        else
          let upd : CbUpd :=
            { status := if cbRc b = .n 0 then "success" else "failed"
              resultCode := cbRc b
              resultDesc := cbRd b
              callbackAt := true }
          (200, "OK", fx0 ++ [.pendingQuery (cbCri b), .pendingUpd ref upd])
    else (200, "OK", fx0)

-- =================================================================
-- Theorems
-- =================================================================

/-- C2, counterexample: on the whitespace-only input `" "` the
normalizer fails, but with the `Phone is empty` error thrown before
any stripping, not with the unsupported-format error naming the raw
input that the claim requires for every non-matching input. -/
theorem normalizePhone_empty_input_cx :
    normalizePhoneForDaraja " " = .error "Phone is empty" ∧
      (Except.error "Phone is empty" : Except String String) ≠
        .error ("Unsupported phone format: " ++ " ") := by
  constructor
  · decide
  · decide

/-- C2 (amended): after trimming, a non-empty input is stripped of a
leading `+` and all non-digit characters (`prePhone`); a digit string
`07` + 8 digits maps to `254` + the digits after the `0`, `7` + 8
digits gets `254` prepended, `2547` + 8 digits passes through
unchanged, and every other digit pattern fails with the
unsupported-format error naming the original raw input.  (Empty or
whitespace-only inputs instead fail earlier with `Phone is empty`.) -/
theorem normalizePhone_classification (raw : String) (h : jsTrim raw ≠ "") :
    (∀ t : String, prePhone raw = "07" ++ t → t.length = 8 →
      (∀ c ∈ t.data, c.isDigit) →
      normalizePhoneForDaraja raw = .ok ("2547" ++ t)) ∧
    (∀ t : String, prePhone raw = "7" ++ t → t.length = 8 →
      (∀ c ∈ t.data, c.isDigit) →
      normalizePhoneForDaraja raw = .ok ("2547" ++ t)) ∧
    (∀ t : String, prePhone raw = "2547" ++ t → t.length = 8 →
      (∀ c ∈ t.data, c.isDigit) →
      normalizePhoneForDaraja raw = .ok (prePhone raw)) ∧
    (shape07 (prePhone raw) = false → shape7 (prePhone raw) = false →
      shape254 (prePhone raw) = false →
      normalizePhoneForDaraja raw = .error ("Unsupported phone format: " ++ raw)) := by
  refine ⟨?_, ?_, ?_, ?_⟩
  · intro t ht hl hd
    have hdata : (prePhone raw).data = '0' :: '7' :: t.data := by
      rw [ht, String.data_append]
      have h07 : ("07" : String).data = ['0', '7'] := by decide
      rw [h07]
      rfl
    have hlen : t.data.length = 8 := hl
    have hall : t.data.all Char.isDigit = true := List.all_eq_true.2 hd
    have hs07 : shape07 (prePhone raw) = true := by
      simp [shape07, hdata, hlen, hall]
    have hres : "254" ++ strDrop1 (prePhone raw) = "2547" ++ t := by
      apply String.ext
      simp [String.data_append, strDrop1, hdata]
    simp [normalizePhoneForDaraja, h, hs07, hres]
  · intro t ht hl hd
    have hdata : (prePhone raw).data = '7' :: t.data := by
      rw [ht, String.data_append]
      have h7 : ("7" : String).data = ['7'] := by decide
      rw [h7]
      rfl
    have hlen : t.data.length = 8 := hl
    have hall : t.data.all Char.isDigit = true := List.all_eq_true.2 hd
    have hs07 : shape07 (prePhone raw) = false := by
      simp [shape07, hdata]
    have hs7 : shape7 (prePhone raw) = true := by
      simp [shape7, hdata, hlen, hall]
    have hres : "254" ++ prePhone raw = "2547" ++ t := by
      apply String.ext
      simp [String.data_append, hdata]
    simp [normalizePhoneForDaraja, h, hs07, hs7, hres]
  · intro t ht hl hd
    have hdata : (prePhone raw).data = '2' :: '5' :: '4' :: '7' :: t.data := by
      rw [ht, String.data_append]
      have h2547 : ("2547" : String).data = ['2', '5', '4', '7'] := by decide
      rw [h2547]
      rfl
    have hlen : t.data.length = 8 := hl
    have hall : t.data.all Char.isDigit = true := List.all_eq_true.2 hd
    have hs07 : shape07 (prePhone raw) = false := by
      simp [shape07, hdata]
    have hs7 : shape7 (prePhone raw) = false := by
      simp [shape7, hdata]
    have hs254 : shape254 (prePhone raw) = true := by
      simp [shape254, hdata, hlen, hall]
    simp [normalizePhoneForDaraja, h, hs07, hs7, hs254]
  · intro h07 h7 h254
    simp [normalizePhoneForDaraja, h, h07, h7, h254]

/-- C2, witness: the amended classification applied to the concrete
local-format number `0712345678`. -/
theorem normalizePhone_classification_witness :
    normalizePhoneForDaraja "0712345678" = .ok ("2547" ++ "12345678") :=
  (normalizePhone_classification "0712345678" (by decide)).1 "12345678"
    (by decide) (by decide) (by decide)

-- ---------------------------------------------------------------
-- Base64 / UTF-8 infrastructure for the password-derivation claim.
-- ---------------------------------------------------------------

theorem sixIndex_sixChar : ∀ v : Nat, v < 64 → sixIndex (sixChar v) = v := by decide

theorem sixChar_ne_pad : ∀ v : Nat, v < 64 → sixChar v ≠ '=' := by decide

/-- `base64Decode` undoes `base64Chars` on byte lists. -/
theorem base64_roundtrip : ∀ l : List Nat, (∀ b ∈ l, b < 256) →
    base64Decode (base64Chars l) = some l
  | [], _ => by simp [base64Chars, base64Decode]
  | [b0], h => by
    have hb0 : b0 < 256 := h b0 (by simp)
    have i1 : sixIndex (sixChar (b0 / 4)) = b0 / 4 := sixIndex_sixChar _ (by omega)
    have i2 : sixIndex (sixChar (b0 % 4 * 16)) = b0 % 4 * 16 := sixIndex_sixChar _ (by omega)
    simp [base64Chars, base64Decode, i1, i2]
    omega
  | [b0, b1], h => by
    have hb0 : b0 < 256 := h b0 (by simp)
    have hb1 : b1 < 256 := h b1 (by simp)
    have i1 : sixIndex (sixChar (b0 / 4)) = b0 / 4 := sixIndex_sixChar _ (by omega)
    have i2 : sixIndex (sixChar (b0 % 4 * 16 + b1 / 16)) = b0 % 4 * 16 + b1 / 16 :=
      sixIndex_sixChar _ (by omega)
    have i3 : sixIndex (sixChar (b1 % 16 * 4)) = b1 % 16 * 4 := sixIndex_sixChar _ (by omega)
    have n3 : sixChar (b1 % 16 * 4) ≠ '=' := sixChar_ne_pad _ (by omega)
    simp [base64Chars, base64Decode, i1, i2, i3, n3]
    constructor
    · omega
    · omega
  | b0 :: b1 :: b2 :: rest, h => by
    have hb0 : b0 < 256 := h b0 (by simp)
    have hb1 : b1 < 256 := h b1 (by simp)
    have hb2 : b2 < 256 := h b2 (by simp)
    have ih := base64_roundtrip rest (fun b hb => h b (by simp [hb]))
    have i1 : sixIndex (sixChar (b0 / 4)) = b0 / 4 := sixIndex_sixChar _ (by omega)
    have i2 : sixIndex (sixChar (b0 % 4 * 16 + b1 / 16)) = b0 % 4 * 16 + b1 / 16 :=
      sixIndex_sixChar _ (by omega)
    have i3 : sixIndex (sixChar (b1 % 16 * 4 + b2 / 64)) = b1 % 16 * 4 + b2 / 64 :=
      sixIndex_sixChar _ (by omega)
    have i4 : sixIndex (sixChar (b2 % 64)) = b2 % 64 := sixIndex_sixChar _ (by omega)
    have n3 : sixChar (b1 % 16 * 4 + b2 / 64) ≠ '=' := sixChar_ne_pad _ (by omega)
    have n4 : sixChar (b2 % 64) ≠ '=' := sixChar_ne_pad _ (by omega)
    simp [base64Chars, base64Decode, i1, i2, i3, i4, n3, n4, ih]
    refine ⟨by omega, by omega, by omega⟩

/-- `utf8Bytes c` starts with `utf8Head c`. -/
theorem utf8Bytes_cons (c : Nat) : ∃ t, utf8Bytes c = utf8Head c :: t := by
  unfold utf8Bytes utf8Head
  split_ifs <;> exact ⟨_, rfl⟩

/-- Equal first bytes force equal UTF-8 length classes. -/
theorem utf8Head_class_eq {c d : Nat} (h : utf8Head c = utf8Head d) :
    (c < 128 ∧ d < 128) ∨
      (128 ≤ c ∧ c < 2048 ∧ 128 ≤ d ∧ d < 2048) ∨
        (2048 ≤ c ∧ c < 65536 ∧ 2048 ≤ d ∧ d < 65536) ∨
          (65536 ≤ c ∧ 65536 ≤ d) := by
  unfold utf8Head at h
  split_ifs at h <;> omega

/-- UTF-8 encoding of code-point lists is injective. -/
theorem utf8Encode_inj (a : List Nat) :
    ∀ b : List Nat, utf8Encode a = utf8Encode b → a = b := by
  induction a with
  | nil =>
    intro b h
    cases b with
    | nil => rfl
    | cons d ds =>
      exfalso
      simp only [utf8Encode] at h
      obtain ⟨t, ht⟩ := utf8Bytes_cons d
      rw [ht] at h
      simp at h
  | cons c cs ih =>
    intro b h
    cases b with
    | nil =>
      exfalso
      simp only [utf8Encode] at h
      obtain ⟨t, ht⟩ := utf8Bytes_cons c
      rw [ht] at h
      simp at h
    | cons d ds =>
      simp only [utf8Encode] at h
      have hh : utf8Head c = utf8Head d := by
        obtain ⟨tc, htc⟩ := utf8Bytes_cons c
        obtain ⟨td, htd⟩ := utf8Bytes_cons d
        rw [htc, htd] at h
        simp only [List.cons_append] at h
        exact (List.cons.injEq _ _ _ _ ▸ h).1
      rcases utf8Head_class_eq hh with ⟨h1, h2⟩ | ⟨h1, h2, h3, h4⟩ | ⟨h1, h2, h3, h4⟩ | ⟨h1, h2⟩
      · simp [utf8Bytes, h1, h2] at h
        obtain ⟨hcd, htl⟩ := h
        rw [hcd, ih ds htl]
      · have h1' : ¬ c < 128 := by omega
        have h3' : ¬ d < 128 := by omega
        simp [utf8Bytes, h1', h2, h3', h4] at h
        obtain ⟨ha, hb, htl⟩ := h
        have : c = d := by omega
        rw [this, ih ds htl]
      · have h1' : ¬ c < 128 := by omega
        have h2' : ¬ c < 2048 := by omega
        have h3' : ¬ d < 128 := by omega
        have h4' : ¬ d < 2048 := by omega
        simp [utf8Bytes, h1', h2', h2, h3', h4', h4] at h
        obtain ⟨ha, hb, hc2, htl⟩ := h
        have : c = d := by omega
        rw [this, ih ds htl]
      · have h1a : ¬ c < 128 := by omega
        have h1b : ¬ c < 2048 := by omega
        have h1c : ¬ c < 65536 := by omega
        have h2a : ¬ d < 128 := by omega
        have h2b : ¬ d < 2048 := by omega
        have h2c : ¬ d < 65536 := by omega
        simp [utf8Bytes, h1a, h1b, h1c, h2a, h2b, h2c] at h
        obtain ⟨ha, hb, hc2, hd2, htl⟩ := h
        have : c = d := by omega
        rw [this, ih ds htl]

/-- Every valid code point is below `0x110000`. -/
theorem char_toNat_lt (c : Char) : c.toNat < 1114112 := by
  rcases c.valid with h | h
  · exact Nat.lt_trans h (by norm_num)
  · exact h.2

theorem char_toNat_injective : Function.Injective Char.toNat :=
  fun _ _ h => Char.ext (UInt32.ext h)

/-- UTF-8 encodings of valid code points are bytes. -/
theorem utf8Encode_lt :
    ∀ l : List Nat, (∀ c ∈ l, c < 1114112) → ∀ b ∈ utf8Encode l, b < 256 := by
  intro l
  induction l with
  | nil => intro _ b hb; simp [utf8Encode] at hb
  | cons c cs ih =>
    intro hl b hb
    simp only [utf8Encode, List.mem_append] at hb
    rcases hb with hb | hb
    · have hc : c < 1114112 := hl c (by simp)
      unfold utf8Bytes at hb
      split_ifs at hb <;> simp at hb <;> omega
    · exact ih (fun x hx => hl x (by simp [hx])) b hb

theorem strBytes_lt (s : String) : ∀ b ∈ strBytes s, b < 256 := by
  apply utf8Encode_lt
  intro c hc
  obtain ⟨ch, _, hch⟩ := List.mem_map.1 hc
  rw [← hch]
  exact char_toNat_lt ch

/-- The byte encoding of strings is injective. -/
theorem strBytes_inj {a b : String} (h : strBytes a = strBytes b) : a = b := by
  have h2 : a.data.map Char.toNat = b.data.map Char.toNat := utf8Encode_inj _ _ h
  exact String.ext (List.map_injective_iff.2 char_toNat_injective h2)

/-- Base64 encoding is injective on byte lists. -/
theorem base64Encode_inj {x y : List Nat} (hx : ∀ b ∈ x, b < 256)
    (hy : ∀ b ∈ y, b < 256) (h : base64Encode x = base64Encode y) : x = y := by
  have hd : base64Chars x = base64Chars y := congrArg String.data h
  have r1 := base64_roundtrip x hx
  rw [hd, base64_roundtrip y hy] at r1
  exact (Option.some.inj r1).symm

/-- C6, counterexample: two distinct `(shortCode, passkey)` pairs of
realistic 5- and 6-digit short-codes with the same concatenation give
the same password for the same timestamp, so derivation is not
injective on distinct triples. -/
theorem makePassword_collision_cx :
    makePassword "12345" "6p" "20250101000000" = makePassword "123456" "p" "20250101000000" ∧
      ¬(("12345" : String) = "123456" ∧ ("6p" : String) = "p") :=
  ⟨rfl, by decide⟩

/-- C6 (amended): password derivation is deterministic and equals
base64 of the separator-free concatenation `shortCode ‖ passkey ‖
timestamp`, and it is injective on triples whose short-codes have equal
length and whose timestamps are 14 characters (as every generated
`YYYYMMDDHHMMSS` timestamp is); without the equal-length side
conditions distinct triples can collide. -/
theorem makePassword_det_inj :
    (∀ p k t : String, makePassword p k t = base64Encode (strBytes (p ++ k ++ t))) ∧
    (∀ p k t p' k' t' : String,
      p.length = p'.length → t.length = 14 → t'.length = 14 →
      makePassword p k t = makePassword p' k' t' →
      p = p' ∧ k = k' ∧ t = t') := by
  constructor
  · intro p k t; rfl
  · intro p k t p' k' t' hp ht ht' h
    have hbytes : strBytes (p ++ k ++ t) = strBytes (p' ++ k' ++ t') :=
      base64Encode_inj (strBytes_lt _) (strBytes_lt _) h
    have hc : p ++ k ++ t = p' ++ k' ++ t' := strBytes_inj hbytes
    have hd : p.data ++ k.data ++ t.data = p'.data ++ k'.data ++ t'.data := by
      have := congrArg String.data hc
      simpa [String.data_append] using this
    have hts : t.data.length = t'.data.length := by
      have h14 : t.data.length = 14 := ht
      have h14' : t'.data.length = 14 := ht'
      omega
    obtain ⟨hpk, htt⟩ := List.append_inj' hd hts
    have hp' : p.data.length = p'.data.length := hp
    obtain ⟨hpp, hkk⟩ := List.append_inj hpk hp'
    exact ⟨String.ext hpp, String.ext hkk, String.ext htt⟩

/-- C6, witness: the amended injectivity applied at a concrete
same-length triple pair. -/
theorem makePassword_det_inj_witness :
    ("174379" : String) = "174379" ∧ ("secretkey" : String) = "secretkey" ∧
      ("20250101010101" : String) = "20250101010101" :=
  makePassword_det_inj.2 "174379" "secretkey" "20250101010101" "174379" "secretkey"
    "20250101010101" rfl (by decide) (by decide) rfl

-- ---------------------------------------------------------------
-- Config resolution and token acquisition claims.
-- ---------------------------------------------------------------

/-- C5, counterexample: with no environment values and a fallback
document whose short-code field is the number `174379`, resolution
succeeds but returns the short-code as the text `"174379"`, not the
stored field verbatim, refuting "returns its seven fields verbatim". -/
theorem config_fallback_coercion_cx :
    getDarajaConfig ⟨none, none, none, none, none, none, none⟩
        (some ⟨.s "ck", .s "cs", .s "pk", .n 174379, .s "o", .s "st", .s "cb"⟩) =
      (.ok ⟨.s "ck", .s "cs", .s "pk", "174379", .s "o", .s "st", .s "cb"⟩, true) ∧
      (JVal.n 174379).toStr = "174379" ∧ JVal.n 174379 ≠ JVal.s "174379" := by
  refine ⟨rfl, rfl, by decide⟩

/-- C5 (amended): if all seven environment values are truthy the bundle
is built entirely from them and the fallback document is never read;
otherwise a complete fallback document is returned with its short-code
coerced to text and the other six fields verbatim; otherwise resolution
fails with the configuration-missing error naming both remediation
paths.  No partial bundle is ever returned. -/
theorem getDarajaConfig_resolution (env : DarajaEnvVars) (fsDoc : Option DarajaDoc) :
    (envComplete env = true →
      getDarajaConfig env fsDoc = (.ok (envBundle env), false)) ∧
    (envComplete env = false → ∀ d, fsDoc = some d → docComplete d = true →
      getDarajaConfig env fsDoc = (.ok (docBundle d), true)) ∧
    (envComplete env = false →
      (fsDoc = none ∨ ∃ d, fsDoc = some d ∧ docComplete d = false) →
      getDarajaConfig env fsDoc = (.error configMissingMsg, true) ∧
        strIncludes configMissingMsg "Set secrets" = true ∧
        strIncludes configMissingMsg "populate app_config/daraja in Firestore" = true) ∧
    (∀ b r, getDarajaConfig env fsDoc = (.ok b, r) →
      (envComplete env = true ∧ b = envBundle env ∧ r = false) ∨
        (envComplete env = false ∧ r = true ∧
          ∃ d, fsDoc = some d ∧ docComplete d = true ∧ b = docBundle d)) := by
  refine ⟨?_, ?_, ?_, ?_⟩
  · intro hc
    simp [getDarajaConfig, hc]
  · intro hc d hd hdc
    simp [getDarajaConfig, hc, loadDarajaConfigFromFirestore, hd, hdc]
  · intro hc hbad
    rcases hbad with hnone | ⟨d, hd, hdc⟩
    · exact ⟨by simp [getDarajaConfig, hc, loadDarajaConfigFromFirestore, hnone],
        by decide, by decide⟩
    · exact ⟨by simp [getDarajaConfig, hc, loadDarajaConfigFromFirestore, hd, hdc],
        by decide, by decide⟩
  · intro b r hres
    by_cases hc : envComplete env = true
    · left
      simp [getDarajaConfig, hc] at hres
      exact ⟨hc, hres.1.symm, hres.2⟩
    · right
      have hc' : envComplete env = false := by simp at hc; exact hc
      cases fsDoc with
      | none => simp [getDarajaConfig, hc', loadDarajaConfigFromFirestore] at hres
      | some d =>
        by_cases hdc : docComplete d = true
        · simp [getDarajaConfig, hc', loadDarajaConfigFromFirestore, hdc] at hres
          exact ⟨hc', hres.2, d, rfl, hdc, hres.1.symm⟩
        · have hdc' : docComplete d = false := by simp at hdc; exact hdc
          simp [getDarajaConfig, hc', loadDarajaConfigFromFirestore, hdc'] at hres

/-- C5, witness: a fully populated environment resolves from the
environment without reading the fallback document. -/
theorem getDarajaConfig_resolution_witness :
    getDarajaConfig
        ⟨some "k", some "s", some "p", some "174379", some "o", some "u", some "c"⟩ none =
      (.ok (envBundle ⟨some "k", some "s", some "p", some "174379", some "o", some "u",
        some "c"⟩), false) :=
  (getDarajaConfig_resolution _ none).1 (by decide)

/-- C7: when the first token call fails and the OAuth URL contains the
production host substring, exactly one retry is made against the same
URL with that substring replaced by the sandbox host, and its outcome
is returned; when the URL does not contain the production host there
is no retry and the original error propagates. -/
theorem tokenAttempt_prod_fallback (net : String → String → String → Option OauthResp)
    (cfg : DarajaCfg) (e : TokErr)
    (hfail : getDarajaToken net cfg.oauthurl cfg.consumerKey cfg.consumerSecret = .error e) :
    (strIncludes cfg.oauthurl prodHost = true →
      tokenAttempt net cfg =
        (getDarajaToken net (strReplaceFirst cfg.oauthurl prodHost sandboxHost)
            cfg.consumerKey cfg.consumerSecret,
          [cfg.oauthurl, strReplaceFirst cfg.oauthurl prodHost sandboxHost])) ∧
    (strIncludes cfg.oauthurl prodHost = false →
      tokenAttempt net cfg = (.error e, [cfg.oauthurl])) := by
  constructor
  · intro hin
    have hne : cfg.oauthurl ≠ "" := by
      intro h0
      rw [h0] at hin
      exact absurd hin (by decide)
    simp [tokenAttempt, hfail, hne, hin]
  · intro hnin
    simp [tokenAttempt, hfail, hnin]

/-- C7, witness: a transport failure against the production OAuth URL
is retried once against the sandbox URL. -/
theorem tokenAttempt_prod_fallback_witness :
    tokenAttempt (fun _ _ _ => none)
        ⟨"ck", "cs", "pk", "174379", "https://api.safaricom.co.ke/oauth", "st", "cb"⟩ =
      (getDarajaToken (fun _ _ _ => none)
          (strReplaceFirst "https://api.safaricom.co.ke/oauth" prodHost sandboxHost) "ck" "cs",
        ["https://api.safaricom.co.ke/oauth",
          strReplaceFirst "https://api.safaricom.co.ke/oauth" prodHost sandboxHost]) :=
  (tokenAttempt_prod_fallback (fun _ _ _ => none)
      ⟨"ck", "cs", "pk", "174379", "https://api.safaricom.co.ke/oauth", "st", "cb"⟩
      (.transport "https://api.safaricom.co.ke/oauth") rfl).1 (by decide)


-- ---------------------------------------------------------------
-- `stkPush` claims.
-- ---------------------------------------------------------------

/-- C3, counterexample: a whitespace-only phone (truthy in JS) passes
the `!phoneRaw` validation, so the handler resolves config and calls
for a token before the normalizer throws, ending in HTTP 502 with side
effects -- not the claimed HTTP 400 with no side effects. -/
theorem stkPush_whitespace_phone_cx :
    stkPush ⟨some " ", some "100", none, none, none⟩
        ⟨.ok ⟨"ck", "cs", "pk", "1", "u", "st", "cb"⟩,
          fun _ _ _ => some ⟨200, some ⟨some "tok"⟩⟩, none⟩ "t" =
      ⟨502, .pushFailed, [.configResolve, .tokenCall "u"]⟩ := by
  rfl

/-- C3 (amended): a request whose phone is absent or the empty string,
or whose amount does not parse to a non-zero integer, gets HTTP 400
with no side effects; a phone that passes that falsiness check but
fails normalization (whitespace-only or unsupported format) flows to
the generic exception path: HTTP 502, after the config read and token
calls but with no pending record written and no upstream call. -/
theorem stkPush_validation (req : StkReq) (env : StkEnv) (ts : String) :
    ((req.phone = none ∨ req.phone = some "" ∨ reqAmount req = none ∨ reqAmount req = some 0) →
      stkPush req env ts = ⟨400, .badInput, []⟩) ∧
    (∀ praw a m, req.phone = some praw → praw ≠ "" → reqAmount req = some a → a ≠ 0 →
      normalizePhoneForDaraja praw = .error m →
      (stkPush req env ts).httpStatus = 502 ∧
        (∀ r, Effect.pendingSet r ∉ (stkPush req env ts).fx) ∧
        Effect.pushCall ∉ (stkPush req env ts).fx) := by
  constructor
  · intro hbad
    rcases hbad with h | h | h | h
    · simp [stkPush, h]
    · rcases ha : reqAmount req with _ | a
      · simp [stkPush, h, ha]
      · simp [stkPush, h, ha]
    · rcases hp : req.phone with _ | praw
      · simp [stkPush, hp]
      · simp [stkPush, hp, h]
    · rcases hp : req.phone with _ | praw
      · simp [stkPush, hp]
      · simp [stkPush, hp, h]
  · intro praw a m hp hne ha hz hnorm
    rcases hcfg : env.cfgRes with e | cfg
    · refine ⟨?_, ?_, ?_⟩ <;> simp [stkPush, hp, ha, hne, hz, hcfg]
    · rcases htok : tokenAttempt env.net cfg with ⟨res, urls⟩
      rcases res with e | tok
      · refine ⟨?_, ?_, ?_⟩ <;> simp [stkPush, hp, ha, hne, hz, hcfg, htok, List.mem_map]
      · refine ⟨?_, ?_, ?_⟩ <;>
          simp [stkPush, hp, ha, hne, hz, hcfg, htok, hnorm, List.mem_map]

/-- C3, witness: an absent phone is rejected with HTTP 400 and an empty
effect trace. -/
theorem stkPush_validation_witness :
    stkPush ⟨none, some "100", none, none, none⟩
        ⟨.error "nocfg", fun _ _ _ => none, none⟩ "t" = ⟨400, .badInput, []⟩ :=
  (stkPush_validation ⟨none, some "100", none, none, none⟩
      ⟨.error "nocfg", fun _ _ _ => none, none⟩ "t").1 (Or.inl rfl)

/-- C4, counterexample: amount `"-5"` parses to the truthy integer
`-5`, passes validation, and is persisted in the pending record, so a
non-positive amount does produce a pending record. -/
theorem stkPush_negative_amount_cx :
    pendingAmounts (stkPush ⟨some "0712345678", some "-5", none, none, none⟩
        ⟨.ok ⟨"ck", "cs", "pk", "1", "u", "st", "cb"⟩,
          fun _ _ _ => some ⟨200, some ⟨some "tok"⟩⟩, none⟩ "t") = [-5] := by
  rfl

/-- C4 (amended): every pending record written by the initiator
carries exactly the parsed request amount, which is a non-zero -- but
not necessarily positive -- integer. -/
theorem stkPush_pending_amount_nonzero (req : StkReq) (env : StkEnv) (ts : String) :
    ∀ x ∈ pendingAmounts (stkPush req env ts), x ≠ 0 ∧ reqAmount req = some x := by
  rcases hp : req.phone with _ | praw
  · simp [stkPush, hp, pendingAmounts]
  rcases ha : reqAmount req with _ | a
  · simp [stkPush, hp, ha, pendingAmounts]
  by_cases hne : praw = ""
  · simp [stkPush, hp, ha, hne, pendingAmounts]
  by_cases hz : a = 0
  · simp [stkPush, hp, ha, hz, pendingAmounts]
  rcases hcfg : env.cfgRes with e | cfg
  · simp [stkPush, hp, ha, hne, hz, hcfg, pendingAmounts]
  rcases htok : tokenAttempt env.net cfg with ⟨res, urls⟩
  rcases res with e | tok
  · simp [stkPush, hp, ha, hne, hz, hcfg, htok, pendingAmounts]
  rcases hnorm : normalizePhoneForDaraja praw with msg | phone
  · simp [stkPush, hp, ha, hne, hz, hcfg, htok, hnorm, pendingAmounts]
  rcases hpr : env.pushResp with _ | resp <;>
    · intro x hx
      simp [stkPush, hp, ha, hne, hz, hcfg, htok, hnorm, hpr, pendingAmounts] at hx
      have hxa : x = a := by omega
      rw [hxa]
      exact ⟨hz, rfl⟩

/-- C4, witness: the amended invariant applied to a concrete accepted
request whose pending record carries amount `100`. -/
theorem stkPush_pending_amount_nonzero_witness :
    (100 : Int) ≠ 0 ∧
      reqAmount ⟨some "0712345678", some "100", none, none, none⟩ = some 100 :=
  stkPush_pending_amount_nonzero ⟨some "0712345678", some "100", none, none, none⟩
      ⟨.ok ⟨"ck", "cs", "pk", "1", "u", "st", "cb"⟩,
        fun _ _ _ => some ⟨200, some ⟨some "tok"⟩⟩, none⟩ "t" 100 (by decide)

/-- C8: when every step up to the upstream POST succeeds and the POST
resolves with any HTTP status, the pending record is updated to
`pending` exactly when the status is 2xx and to `failed` otherwise,
with response status and body persisted, and the endpoint returns
HTTP 200 carrying `{ok, status, data, checkoutRequestId}`; HTTP 502
arises only from a thrown step: config resolution, token acquisition,
phone normalization, or a push transport error. -/
theorem stkPush_response_as_data (req : StkReq) (env : StkEnv) (ts : String) :
    (∀ praw a cfg tok urls phone resp,
      req.phone = some praw → praw ≠ "" → reqAmount req = some a → a ≠ 0 →
      env.cfgRes = .ok cfg → tokenAttempt env.net cfg = (.ok tok, urls) →
      normalizePhoneForDaraja praw = .ok phone → env.pushResp = some resp →
      (stkPush req env ts).httpStatus = 200 ∧
        (stkPush req env ts).respBody = .success resp.status resp.data (extractCri resp.data) ∧
        Effect.pendingUpdate
            ⟨extractCri resp.data,
              if 200 ≤ resp.status ∧ resp.status < 300 then "pending" else "failed",
              resp.status, resp.data, true⟩ ∈ (stkPush req env ts).fx) ∧
    ((stkPush req env ts).httpStatus = 502 →
      (∃ e, env.cfgRes = .error e) ∨
        (∃ cfg e urls, env.cfgRes = .ok cfg ∧ tokenAttempt env.net cfg = (.error e, urls)) ∨
        (∃ praw msg, req.phone = some praw ∧ normalizePhoneForDaraja praw = .error msg) ∨
        env.pushResp = none) := by
  constructor
  · intro praw a cfg tok urls phone resp hp hne ha hz hcfg htok hnorm hpr
    refine ⟨?_, ?_, ?_⟩ <;>
      simp [stkPush, hp, ha, hne, hz, hcfg, htok, hnorm, hpr]
  · intro h502
    rcases hp : req.phone with _ | praw
    · simp [stkPush, hp] at h502
    rcases ha : reqAmount req with _ | a
    · simp [stkPush, hp, ha] at h502
    by_cases hne : praw = ""
    · simp [stkPush, hp, ha, hne] at h502
    by_cases hz : a = 0
    · simp [stkPush, hp, ha, hz] at h502
    rcases hcfg : env.cfgRes with e | cfg
    · exact Or.inl ⟨e, rfl⟩
    rcases htok : tokenAttempt env.net cfg with ⟨res, urls⟩
    rcases res with e | tok
    · exact Or.inr (Or.inl ⟨cfg, e, urls, rfl, htok⟩)
    rcases hnorm : normalizePhoneForDaraja praw with msg | phone
    · exact Or.inr (Or.inr (Or.inl ⟨praw, msg, rfl, hnorm⟩))
    rcases hpr : env.pushResp with _ | resp
    · exact Or.inr (Or.inr (Or.inr rfl))
    · simp [stkPush, hp, ha, hne, hz, hcfg, htok, hnorm, hpr] at h502

/-- C8, witness: a 404 upstream response still yields HTTP 200 to the
caller, with the pending record updated to `failed`. -/
theorem stkPush_response_as_data_witness :
    (stkPush ⟨some "0712345678", some "100", none, none, none⟩
        ⟨.ok ⟨"ck", "cs", "pk", "1", "u", "st", "cb"⟩,
          fun _ _ _ => some ⟨200, some ⟨some "tok"⟩⟩, some ⟨404, none⟩⟩ "t").httpStatus = 200 ∧
      (stkPush ⟨some "0712345678", some "100", none, none, none⟩
          ⟨.ok ⟨"ck", "cs", "pk", "1", "u", "st", "cb"⟩,
            fun _ _ _ => some ⟨200, some ⟨some "tok"⟩⟩, some ⟨404, none⟩⟩ "t").respBody =
        .success (404 : Nat) (none : Option PushData) (extractCri none) ∧
      Effect.pendingUpdate
          ⟨extractCri none,
            if 200 ≤ (404 : Nat) ∧ (404 : Nat) < 300 then "pending" else "failed",
            404, none, true⟩ ∈
        (stkPush ⟨some "0712345678", some "100", none, none, none⟩
            ⟨.ok ⟨"ck", "cs", "pk", "1", "u", "st", "cb"⟩,
              fun _ _ _ => some ⟨200, some ⟨some "tok"⟩⟩, some ⟨404, none⟩⟩ "t").fx :=
  (stkPush_response_as_data ⟨some "0712345678", some "100", none, none, none⟩
      ⟨.ok ⟨"ck", "cs", "pk", "1", "u", "st", "cb"⟩,
        fun _ _ _ => some ⟨200, some ⟨some "tok"⟩⟩, some ⟨404, none⟩⟩ "t").1
    "0712345678" 100 ⟨"ck", "cs", "pk", "1", "u", "st", "cb"⟩ "tok" ["u"] "254712345678"
    ⟨404, none⟩ rfl (by decide) rfl (by decide) rfl rfl rfl rfl


-- ---------------------------------------------------------------
-- `darajaCallback` claims.
-- ---------------------------------------------------------------

/-- C1: evaluating the handler on the scenario-2 body
`{Body:{stkCallback:{CheckoutRequestID:"abc123", ResultCode:0,
ResultDesc:"Success"}}}` against a matching pending record shows the
pending status is set to `"failed"`, not `"success"`, and the stored
result code is `null`: the extraction
`payload.ResultCode || payload.resultCode || null` maps the falsy
number `0` to `null`, so the `resultCode === 0` success branch can
never fire -- the extracted result code is provably never the
integer `0`. -/
theorem callback_resultCode_zero_eval :
    darajaCallback
        ⟨some ⟨.s "abc123", .jnull, .n 0, .jnull, .s "Success", .jnull⟩, none, none,
          ⟨.jnull, .jnull, .jnull, .jnull, .jnull, .jnull⟩⟩
        ⟨"gen1", true, .found "p1", true⟩ =
      (200, "OK",
        [.resultSet (.byId (.s "abc123"))
            ⟨⟨some ⟨.s "abc123", .jnull, .n 0, .jnull, .s "Success", .jnull⟩, none, none,
                ⟨.jnull, .jnull, .jnull, .jnull, .jnull, .jnull⟩⟩,
              .s "abc123", .jnull, .s "Success", true⟩,
          .pendingQuery (.s "abc123"),
          .pendingUpd "p1" ⟨"failed", .jnull, .s "Success", true⟩]) ∧
      (∀ a b : JVal, jvOr2 a b ≠ .n 0) := by
  constructor
  · rfl
  · intro a b h
    unfold jvOr2 at h
    split_ifs at h with h1 h2
    · rw [h] at h1
      simp [JVal.truthy] at h1
    · rw [h] at h2
      simp [JVal.truthy] at h2

/-- C9: whenever the callback-result write itself succeeds, the first
persisted effect of every callback invocation is the
`payments_results` write, keyed by the extracted correlation identifier
when truthy and by the generated id otherwise, containing the raw
body, the extracted fields and a receipt timestamp; when the
correlation identifier matches no pending record (or none was
extracted) no pending record is touched and the handler still returns
HTTP 200 `OK`. -/
theorem darajaCallback_always_persists (b : CbBody) (env : CbEnv)
    (hw : env.resultWriteOk = true) :
    ((darajaCallback b env).2.2.head? = some (.resultSet (cbKey b env.genId) (cbRec b))) ∧
    ((cbCri b).truthy = true → env.lookup = QRes.empty →
      darajaCallback b env =
        (200, "OK", [.resultSet (cbKey b env.genId) (cbRec b), .pendingQuery (cbCri b)])) ∧
    ((cbCri b).truthy = false →
      darajaCallback b env = (200, "OK", [.resultSet (cbKey b env.genId) (cbRec b)])) := by
  refine ⟨?_, ?_, ?_⟩
  · cases ht : (cbCri b).truthy with
    | false => simp [darajaCallback, hw, ht]
    | true =>
      rcases hl : env.lookup with _ | _ | ref
      · simp [darajaCallback, hw, ht, hl]
      · simp [darajaCallback, hw, ht, hl]
      · cases hu : env.updateOk <;> simp [darajaCallback, hw, ht, hl, hu]
  · intro ht hl
    simp [darajaCallback, hw, ht, hl]
  · intro ht
    simp [darajaCallback, hw, ht]

/-- C9, witness: a concrete callback whose correlation identifier
matches nothing still persists its callback-result record and returns
HTTP 200. -/
theorem darajaCallback_always_persists_witness :
    ((darajaCallback ⟨none, none, none, ⟨.s "x", .jnull, .n 1, .jnull, .jnull, .jnull⟩⟩
        ⟨"g", true, .empty, true⟩).2.2.head? =
      some (.resultSet
        (cbKey ⟨none, none, none, ⟨.s "x", .jnull, .n 1, .jnull, .jnull, .jnull⟩⟩ "g")
        (cbRec ⟨none, none, none, ⟨.s "x", .jnull, .n 1, .jnull, .jnull, .jnull⟩⟩))) ∧
    ((cbCri ⟨none, none, none, ⟨.s "x", .jnull, .n 1, .jnull, .jnull, .jnull⟩⟩).truthy = true →
      (⟨"g", true, .empty, true⟩ : CbEnv).lookup = QRes.empty →
      darajaCallback ⟨none, none, none, ⟨.s "x", .jnull, .n 1, .jnull, .jnull, .jnull⟩⟩
          ⟨"g", true, .empty, true⟩ =
        (200, "OK",
          [.resultSet
              (cbKey ⟨none, none, none, ⟨.s "x", .jnull, .n 1, .jnull, .jnull, .jnull⟩⟩ "g")
              (cbRec ⟨none, none, none, ⟨.s "x", .jnull, .n 1, .jnull, .jnull, .jnull⟩⟩),
            .pendingQuery (cbCri ⟨none, none, none,
              ⟨.s "x", .jnull, .n 1, .jnull, .jnull, .jnull⟩⟩)])) ∧
    ((cbCri ⟨none, none, none, ⟨.s "x", .jnull, .n 1, .jnull, .jnull, .jnull⟩⟩).truthy = false →
      darajaCallback ⟨none, none, none, ⟨.s "x", .jnull, .n 1, .jnull, .jnull, .jnull⟩⟩
          ⟨"g", true, .empty, true⟩ =
        (200, "OK",
          [.resultSet
              (cbKey ⟨none, none, none, ⟨.s "x", .jnull, .n 1, .jnull, .jnull, .jnull⟩⟩ "g")
              (cbRec ⟨none, none, none, ⟨.s "x", .jnull, .n 1, .jnull, .jnull, .jnull⟩⟩)])) :=
  darajaCallback_always_persists
    ⟨none, none, none, ⟨.s "x", .jnull, .n 1, .jnull, .jnull, .jnull⟩⟩
    ⟨"g", true, .empty, true⟩ rfl

/-- C10: the callback-result write happens before the pending lookup
and update; if the lookup throws the handler returns HTTP 500 having
persisted exactly the callback-result record, if the update throws it
returns HTTP 500 having persisted the record and performed the lookup,
and a pending-record update never appears in a trace whose first
effect is not the callback-result write. -/
theorem darajaCallback_write_before_update (b : CbBody) (env : CbEnv) :
    (env.resultWriteOk = true → (cbCri b).truthy = true → env.lookup = QRes.threw →
      darajaCallback b env = (500, "error", [.resultSet (cbKey b env.genId) (cbRec b)])) ∧
    (env.resultWriteOk = true → (cbCri b).truthy = true →
      ∀ ref, env.lookup = QRes.found ref → env.updateOk = false →
      darajaCallback b env =
        (500, "error",
          [.resultSet (cbKey b env.genId) (cbRec b), .pendingQuery (cbCri b)])) ∧
    (∀ ref upd, CbEffect.pendingUpd ref upd ∈ (darajaCallback b env).2.2 →
      (darajaCallback b env).2.2.head? = some (.resultSet (cbKey b env.genId) (cbRec b))) := by
  refine ⟨?_, ?_, ?_⟩
  · intro hw ht hl
    simp [darajaCallback, hw, ht, hl]
  · intro hw ht ref hl hu
    simp [darajaCallback, hw, ht, hl, hu]
  · intro ref upd hmem
    cases hw : env.resultWriteOk with
    | false => simp [darajaCallback, hw] at hmem
    | true =>
      cases ht : (cbCri b).truthy with
      | false => simp [darajaCallback, hw, ht] at hmem
      | true =>
        rcases hl : env.lookup with _ | _ | r
        · simp [darajaCallback, hw, ht, hl] at hmem
        · simp [darajaCallback, hw, ht, hl] at hmem
        · cases hu : env.updateOk with
          | false => simp [darajaCallback, hw, ht, hl, hu] at hmem
          | true => simp [darajaCallback, hw, ht, hl, hu]

/-- C10, witness: a throwing pending lookup yields HTTP 500 with the
callback-result record already persisted as the only effect. -/
theorem darajaCallback_write_before_update_witness :
    darajaCallback ⟨none, none, none, ⟨.s "x", .jnull, .n 1, .jnull, .jnull, .jnull⟩⟩
        ⟨"g", true, .threw, true⟩ =
      (500, "error",
        [.resultSet
            (cbKey ⟨none, none, none, ⟨.s "x", .jnull, .n 1, .jnull, .jnull, .jnull⟩⟩ "g")
            (cbRec ⟨none, none, none, ⟨.s "x", .jnull, .n 1, .jnull, .jnull, .jnull⟩⟩)]) :=
  (darajaCallback_write_before_update
      ⟨none, none, none, ⟨.s "x", .jnull, .n 1, .jnull, .jnull, .jnull⟩⟩
      ⟨"g", true, .threw, true⟩).1 rfl (by decide) rfl

end PayStk
